import Mathlib

/-!
Shallow embedding of the fastapi-supabase boilerplate's core logic:
the exception taxonomy (src/core/exceptions.py), the auth and user route
handlers (src/api/auth.py, src/api/user.py), local JWT verification
(src/middlewares/jwt_middleware.py), and the audit logger
(src/utils/audit_logger.py).

External calls (the Supabase SDK, the jose decode) are modelled as
oracle arguments: an inductive outcome type per call site records whether
the call raised a Python exception or returned a response, and handlers
are functions of those outcomes.  Python dictionaries of strings are
association lists; Python truthiness of optional values is made explicit.
-/

/- ===== src/core/exceptions.py ===== -/

/-- `AppException(message, status_code=500, details=None)`: `details or {}`
is an association list, `[]` for the `None` default. -/
structure AppException where
  message : String
  status_code : Nat
  details : List (String × String)
deriving DecidableEq, Repr

/-- `class AuthenticationError(AppException)`: status code 401.
(The Python default message is "Authentication failed"; handlers always
pass an explicit message, so defaults are not modelled.) -/
def AuthenticationError (message : String) (details : List (String × String)) : AppException :=
  ⟨message, 401, details⟩

/-- `class AuthorizationError(AppException)`: status code 403. -/
def AuthorizationError (message : String) (details : List (String × String)) : AppException :=
  ⟨message, 403, details⟩

/-- `class ValidationError(AppException)`: status code 422. -/
def ValidationError (message : String) (details : List (String × String)) : AppException :=
  ⟨message, 422, details⟩

/-- `class NotFoundError(AppException)`: status code 404. -/
def NotFoundError (message : String) (details : List (String × String)) : AppException :=
  ⟨message, 404, details⟩

/-- `class ConflictError(AppException)`: status code 409. -/
def ConflictError (message : String) (details : List (String × String)) : AppException :=
  ⟨message, 409, details⟩

/-- `class ExternalServiceError(AppException)`: status code 502. -/
def ExternalServiceError (message : String) (details : List (String × String)) : AppException :=
  ⟨message, 502, details⟩

/-- The `detail` field of a FastAPI `HTTPException`: either a plain string
or the `{"message": ..., "details": ...}` object built by
`create_http_exception`. -/
inductive HTTPDetail where
  | str (s : String)
  | obj (message : String) (details : List (String × String))
deriving DecidableEq, Repr

structure HTTPException where
  status_code : Nat
  detail : HTTPDetail
deriving DecidableEq, Repr

/-- `create_http_exception(exc)` (src/core/exceptions.py lines 89-94). -/
def create_http_exception (exc : AppException) : HTTPException :=
  ⟨exc.status_code, .obj exc.message exc.details⟩

/- ===== Python exception values reaching a handler's `except` block ===== -/

/-- Which `AppException` subclass an application exception was constructed
through; needed to model Python `isinstance` checks. -/
inductive AppExcClass where
  | authenticationError | authorizationError | validationError
  | notFoundError | conflictError | externalServiceError | appBase
deriving DecidableEq, Repr

/-- An application exception instance: its class plus constructor
arguments. -/
structure AppExc where
  cls : AppExcClass
  message : String
  details : List (String × String)
deriving DecidableEq, Repr

/-- The `AppException` value such an instance denotes (the subclass
constructors fix the status code; bare `AppException` defaults to 500). -/
def AppExc.toAppException : AppExc → AppException
  | ⟨.authenticationError, m, d⟩ => AuthenticationError m d
  | ⟨.authorizationError, m, d⟩ => AuthorizationError m d
  | ⟨.validationError, m, d⟩ => ValidationError m d
  | ⟨.notFoundError, m, d⟩ => NotFoundError m d
  | ⟨.conflictError, m, d⟩ => ConflictError m d
  | ⟨.externalServiceError, m, d⟩ => ExternalServiceError m d
  | ⟨.appBase, m, d⟩ => ⟨m, 500, d⟩

/-- A Python exception as seen by a handler's `except Exception as e`:
an application exception, a non-application exception exposing a
`.message` attribute (Supabase SDK errors), or any other exception, whose
`.detail` attribute (`getattr(e, "detail", None)`) may or may not exist. -/
inductive PyExc where
  | app (e : AppExc)
  | withMessage (message : String)
  | plain (detail : Option String)
deriving DecidableEq, Repr

def PyExc.isApp : PyExc → Bool
  | .app _ => true
  | _ => false

/-- `isinstance(e, (AuthenticationError, ValidationError))`. -/
def isinstance_auth_or_validation : PyExc → Bool
  | .app e => e.cls == .authenticationError || e.cls == .validationError
  | _ => false

/-- `isinstance(e, (AuthenticationError, ValidationError, NotFoundError,
ConflictError, ExternalServiceError))`. -/
def isinstance_app5 : PyExc → Bool
  | .app e => e.cls == .authenticationError || e.cls == .validationError
      || e.cls == .notFoundError || e.cls == .conflictError
      || e.cls == .externalServiceError
  | _ => false

/-- `isinstance(e, ValidationError)`. -/
def isinstance_validation : PyExc → Bool
  | .app e => e.cls == .validationError
  | _ => false

/-- The value of `create_http_exception(e)` for an exception that passed an
`isinstance` check against `AppException` subclasses (only consulted on
those branches). -/
def pyExcToAppException : PyExc → AppException
  | .app e => e.toAppException
  | .withMessage m => ⟨m, 500, []⟩
  | .plain _ => ⟨"", 500, []⟩

/-- `hasattr(e, "message")` and the attribute's value: application
exceptions set `self.message`; Supabase errors expose `.message`. -/
def PyExc.messageAttr : PyExc → Option String
  | .app e => some e.message
  | .withMessage m => some m
  | .plain _ => none

/-- `getattr(e, "detail", None)`: only exceptions modelled as `plain` may
carry a `.detail` attribute (e.g. an `HTTPException`). -/
def PyExc.detailAttr : PyExc → Option String
  | .plain d => d
  | _ => none

/- ===== Python truthiness helpers ===== -/

/-- Python truthiness of an optional string: `None` and `""` are falsy. -/
def truthyStr : Option String → Option String
  | some s => if s = "" then none else some s
  | none => none

/-- Python truthiness of an optional integer: `None` and `0` are falsy. -/
def truthyInt : Option Int → Option Int
  | some n => if n = 0 then none else some n
  | none => none

/-- Python `x or default` for an optional string `x` (falsy values fall
through to the default). -/
def pyOr (v : Option String) (d : String) : String :=
  match truthyStr v with
  | some s => s
  | none => d

/-- Python `str(x)` for an optional string (`str(None)` is `"None"`). -/
def pyStr : Option String → String
  | some s => s
  | none => "None"

/-- Whether `pat` occurs as a contiguous run of `s` (checked at every
suffix). -/
def containsSub : List Char → List Char → Bool
  | [], pat => pat == []
  | c :: rest, pat => pat.isPrefixOf (c :: rest) || containsSub rest pat

/-- Python `pat in s` (substring test). -/
def strContains (s pat : String) : Bool :=
  containsSub s.toList pat.toList

/-- Python `s.lower()`. -/
def pyLower (s : String) : String :=
  ⟨s.toList.map Char.toLower⟩

/-- Characters before the first `@`. -/
def takeUntilAt : List Char → List Char
  | [] => []
  | c :: rest => if c = '@' then [] else c :: takeUntilAt rest

/-- Python `email.split("@")[0]`: the characters before the first `@`
(the whole string when there is none). -/
def emailLocalPart (s : String) : String :=
  ⟨takeUntilAt s.toList⟩

/- ===== except-block translators of each route handler ===== -/

/-- `except` block of `login` (src/api/auth.py lines 55-62): application
authentication/validation errors become their own HTTP exception; anything
else becomes 400 with `str(getattr(e, "detail", None)) or "Invalid
credentials"` as detail. -/
def login_except (e : PyExc) : HTTPException :=
  if isinstance_auth_or_validation e then create_http_exception (pyExcToAppException e)
  else ⟨400, .str (pyOr (some (pyStr e.detailAttr)) "Invalid credentials")⟩

/-- `except` block of `refresh_token` (src/api/auth.py lines 89-93): every
exception becomes 401 "Token refresh failed". -/
def refresh_token_except (_ : PyExc) : HTTPException :=
  ⟨401, .str "Token refresh failed"⟩

/-- `except` block of `register` (src/api/auth.py lines 159-165). -/
def register_except (e : PyExc) : HTTPException :=
  if isinstance_auth_or_validation e then create_http_exception (pyExcToAppException e)
  else ⟨400, .str "Registration failed"⟩

/-- `except` block of `logout` (src/api/auth.py lines 179-184). -/
def logout_except (_ : PyExc) : HTTPException :=
  ⟨500, .str "Logout failed"⟩

/-- `except` block of `forgot_password` (src/api/auth.py lines 216-221). -/
def forgot_password_except (_ : PyExc) : HTTPException :=
  ⟨500, .str "Failed to send password reset email"⟩

/-- `except` block of `reset_password` (src/api/auth.py lines 250-257). -/
def reset_password_except (e : PyExc) : HTTPException :=
  if isinstance_validation e then create_http_exception (pyExcToAppException e)
  else ⟨500, .str "Password reset failed"⟩

/-- `except` block of `delete_user` (src/api/user.py lines 224-229). -/
def delete_user_except (_ : PyExc) : HTTPException :=
  ⟨500, .str "Failed to delete user"⟩

/-- `except` block of `get_user_profile` (src/api/user.py lines 60-98):
five application exception classes pass through; non-application
exceptions with a `.message` attribute are classified by substring
matching; the rest become 500. -/
def get_user_profile_except (e : PyExc) : HTTPException :=
  if isinstance_app5 e then create_http_exception (pyExcToAppException e)
  else
    match e.messageAttr with
    | some m =>
        if strContains m "Invalid JWT" || strContains m "JWT expired" then
          create_http_exception (AuthenticationError "Session expired. Please login again." [])
        else if strContains m "User not found" then
          create_http_exception (NotFoundError "User profile not found" [])
        else
          create_http_exception (ExternalServiceError ("Failed to fetch profile: " ++ m) [])
    | none => ⟨500, .str "Failed to fetch user profile"⟩

/-- `except` block of `update_user_profile` (src/api/user.py lines
152-203): like `get_user_profile` plus duplicate/validation message
branches. -/
def update_user_profile_except (e : PyExc) : HTTPException :=
  if isinstance_app5 e then create_http_exception (pyExcToAppException e)
  else
    match e.messageAttr with
    | some m =>
        if strContains m "Invalid JWT" || strContains m "JWT expired" then
          create_http_exception (AuthenticationError "Session expired. Please login again." [])
        else if strContains m "User not found" then
          create_http_exception (NotFoundError "User profile not found" [])
        else if strContains (pyLower m) "already exists" || strContains (pyLower m) "duplicate" then
          create_http_exception (ConflictError "Username already exists. Please choose a different username." [])
        else if strContains (pyLower m) "validation" then
          create_http_exception (ValidationError ("Invalid profile data: " ++ m) [])
        else
          create_http_exception (ExternalServiceError ("Failed to update profile: " ++ m) [])
    | none => ⟨500, .str "Failed to update user profile"⟩

/- ===== src/api/auth.py: login ===== -/

/-- Request schema `UserLogin` (src/schemas/auth.py). -/
structure UserLogin where
  email : String
  password : String
deriving DecidableEq, Repr

/-- The session object inside a Supabase auth response. -/
structure Session where
  access_token : String
  refresh_token : String
  expires_in : Int
deriving DecidableEq, Repr

/-- The user object inside a Supabase auth response, as the login and
refresh handlers read it: `email` and the `user_metadata` dict. -/
structure ProviderUser where
  email : String
  user_metadata : List (String × String)
deriving DecidableEq, Repr

/-- Response schema `LoginUserResponse` (src/schemas/auth.py). -/
structure LoginUserResponse where
  username : Option String
  email : String
  full_name : Option String
deriving DecidableEq, Repr

/-- Response schema `TokenResponse` (src/schemas/auth.py). -/
structure TokenResponse where
  access_token : String
  token_type : String
  expires_in : Int
  refresh_token : String
  user : Option LoginUserResponse
deriving DecidableEq, Repr

/-- Outcome of `supabase.auth.sign_in_with_password(...)`: the call raises,
or returns a response with optional `user` and `session`. -/
inductive SignInOutcome where
  | raises (e : PyExc)
  | resp (user : Option ProviderUser) (session : Option Session)

/-- `login` handler (src/api/auth.py lines 27-62), as a function of the
request and the provider-call outcome.  `user_metadata.get("username") or
user.email.split("@")[0]` is Python falsy-or. -/
def login (user : UserLogin) (sign_in : SignInOutcome) : Except HTTPException TokenResponse :=
  match sign_in with
  | .raises e => .error (login_except e)
  | .resp u s =>
      match u, s with
      | some pu, some sess =>
          .ok ⟨sess.access_token, "bearer", sess.expires_in, sess.refresh_token,
            some ⟨some (pyOr (pu.user_metadata.lookup "username") (emailLocalPart user.email)),
              pu.email, pu.user_metadata.lookup "full_name"⟩⟩
      | _, _ => .error (login_except (.app ⟨.authenticationError, "Invalid credentials", []⟩))

/-- The status code of a handler outcome's error, if it is an error. -/
def errStatus {α : Type} : Except HTTPException α → Option Nat
  | .error e => some e.status_code
  | .ok _ => none

/- ===== src/api/auth.py: refresh, register, logout, password reset ===== -/

/-- `refresh_token` handler (src/api/auth.py lines 65-93): on any raised
exception, and on a response without a session, the `except` block yields
401 (a missing session raises `AuthenticationError`, which the blanket
`except` also maps to 401 "Token refresh failed").  A response with a
session but `user = None` raises `AttributeError` reading
`response.user.user_metadata` (modelled as a `plain` exception). -/
def refresh_token (sb_refresh : SignInOutcome) : Except HTTPException TokenResponse :=
  match sb_refresh with
  | .raises e => .error (refresh_token_except e)
  | .resp u s =>
      match s with
      | none => .error (refresh_token_except (.app ⟨.authenticationError, "Invalid refresh token", []⟩))
      | some sess =>
          match u with
          | none => .error (refresh_token_except (.plain none))
          | some pu =>
              .ok ⟨sess.access_token, "bearer", sess.expires_in, sess.refresh_token,
                some ⟨some (pyOr (pu.user_metadata.lookup "username") (emailLocalPart pu.email)),
                  pu.email, pu.user_metadata.lookup "full_name"⟩⟩

/-- Request schema `UserRegister` (src/schemas/auth.py). -/
structure UserRegister where
  email : String
  password : String
  full_name : Option String
  username : Option String
deriving DecidableEq, Repr

/-- Response schema `UserResponse` (src/schemas/auth.py). -/
structure UserResponse where
  id : String
  email : String
  full_name : Option String
  username : Option String
  created_at : String
  updated_at : String
deriving DecidableEq, Repr

/-- Response schema `RegisterUserResponse` (src/schemas/auth.py). -/
structure RegisterUserResponse where
  status : String
  user : UserResponse
  message : Option String
deriving DecidableEq, Repr

/-- A row of the `users` table as `register` reads it. -/
structure RegRow where
  id : String
  email : String
  raw_user_meta_data : List (String × String)
  created_at : String
  updated_at : String
deriving DecidableEq, Repr

/-- The user object returned by `supabase.auth.sign_up`; timestamps are
already the `isoformat()` strings, `none` when the attribute is `None`. -/
structure SignUpUser where
  id : String
  email : String
  created_at : Option String
  updated_at : Option String
deriving DecidableEq, Repr

/-- Outcome of `supabase.auth.sign_up(...)`. -/
inductive SignUpOutcome where
  | raises (e : PyExc)
  | resp (user : Option SignUpUser)

/-- Outcome of the `users`-table lookup
`table("users").select("*").eq("email", ...).maybe_single().execute()`:
`found none` covers both a falsy response object and a response whose
`.data` is `None`/falsy (no existing row). -/
inductive LookupOutcome where
  | raises (e : PyExc)
  | found (data : Option RegRow)

/-- `register` handler (src/api/auth.py lines 96-165). -/
def register (user : UserRegister) (lookup : LookupOutcome) (sign_up : SignUpOutcome) :
    Except HTTPException RegisterUserResponse :=
  match lookup with
  | .raises e => .error (register_except e)
  | .found (some u) =>
      .ok ⟨"exists",
        ⟨u.id, u.email,
          some ((u.raw_user_meta_data.lookup "full_name").getD ""),
          some ((u.raw_user_meta_data.lookup "username").getD ""),
          u.created_at, u.updated_at⟩,
        some "User is already registered"⟩
  | .found none =>
      match sign_up with
      | .raises e => .error (register_except e)
      | .resp none => .error (register_except (.app ⟨.validationError, "Registration failed", []⟩))
      | .resp (some ru) =>
          .ok ⟨"success",
            ⟨ru.id, ru.email, user.full_name, user.username,
              ru.created_at.getD "", ru.updated_at.getD ""⟩,
            none⟩

/-- Outcome of a provider call whose response body the handler ignores
(e.g. `sign_out`, `reset_password_email`): it raises or succeeds. -/
inductive CallOutcome where
  | raises (e : PyExc)
  | ok

/-- `logout` handler (src/api/auth.py lines 168-184). -/
def logout (sign_out : CallOutcome) : Except HTTPException String :=
  match sign_out with
  | .raises e => .error (logout_except e)
  | .ok => .ok "Successfully logged out"

/-- `forgot_password` handler (src/api/auth.py lines 206-221). -/
def forgot_password (reset_email : CallOutcome) : Except HTTPException String :=
  match reset_email with
  | .raises e => .error (forgot_password_except e)
  | .ok => .ok "Password reset email sent"

/-- Outcome of `supabase.auth.set_session` / `supabase.auth.update_user`
style calls, read only for the presence of `session` / `user`. -/
inductive PresenceOutcome where
  | raises (e : PyExc)
  | resp (present : Bool)

/-- `reset_password` handler (src/api/auth.py lines 224-257): both
`ValidationError`s raised in the body are mapped by its `except` block
through `create_http_exception`; everything else becomes 500. -/
def reset_password (set_session : PresenceOutcome) (update_pw : PresenceOutcome) :
    Except HTTPException String :=
  match set_session with
  | .raises e => .error (reset_password_except e)
  | .resp false => .error (reset_password_except (.app ⟨.validationError, "Failed to establish session", []⟩))
  | .resp true =>
      match update_pw with
      | .raises e => .error (reset_password_except e)
      | .resp false => .error (reset_password_except (.app ⟨.validationError, "Password reset failed", []⟩))
      | .resp true => .ok "Password successfully reset"

/- ===== src/api/user.py: profile and account routes ===== -/

/-- Request schema `UserProfileUpdate` (src/schemas/auth.py). -/
structure UserProfileUpdate where
  username : Option String
  full_name : Option String
  avatar_url : Option String
deriving DecidableEq, Repr

/-- Response schema `UserProfileResponse` (src/schemas/auth.py). -/
structure UserProfileResponse where
  username : Option String
  full_name : Option String
  avatar_url : Option String
deriving DecidableEq, Repr

/-- Response schema `UserProfileUpdateResponse` (src/schemas/auth.py). -/
structure UserProfileUpdateResponse where
  status : String
  user : UserProfileResponse
deriving DecidableEq, Repr

/-- Response schema `DeleteUserResponse` (src/schemas/auth.py); the
handler never sets `user`. -/
structure DeleteUserResponse where
  status : String
  message : Option String
deriving DecidableEq, Repr

/-- A provider user object read only through `user_metadata` (possibly
`None`, hence the `or {}` in the handlers). -/
structure MetaUser where
  user_metadata : Option (List (String × String))
deriving DecidableEq, Repr

/-- Outcome of `supabase.auth.get_user()` / `supabase.auth.update_user(...)`
in the profile handlers. -/
inductive MetaUserOutcome where
  | raises (e : PyExc)
  | resp (user : Option MetaUser)

/-- `get_user_profile` handler (src/api/user.py lines 29-98). -/
def get_user_profile (get_user : MetaUserOutcome) : Except HTTPException UserProfileResponse :=
  match get_user with
  | .raises e => .error (get_user_profile_except e)
  | .resp none => .error (get_user_profile_except (.app ⟨.notFoundError, "User profile not found", []⟩))
  | .resp (some u) =>
      let meta := u.user_metadata.getD []
      .ok ⟨meta.lookup "username", meta.lookup "full_name", meta.lookup "avatar_url"⟩

/-- The `update_data` dict built by `update_user_profile` (src/api/user.py
lines 125-131): each field contributes only when truthy, in source
order. -/
def build_update_data (p : UserProfileUpdate) : List (String × String) :=
  (match truthyStr p.username with
    | some s => [("username", s)]
    | none => []) ++
  (match truthyStr p.full_name with
    | some s => [("full_name", s)]
    | none => []) ++
  (match truthyStr p.avatar_url with
    | some s => [("avatar_url", s)]
    | none => [])

/-- `update_user_profile` handler (src/api/user.py lines 101-203), as a
function of the request and the `supabase.auth.update_user` oracle (a
function of the `update_data` passed to it). -/
def update_user_profile (p : UserProfileUpdate)
    (update_user : List (String × String) → MetaUserOutcome) :
    Except HTTPException UserProfileUpdateResponse :=
  let update_data := build_update_data p
  if update_data.isEmpty then
    .error (update_user_profile_except (.app ⟨.validationError, "No profile data provided for update", []⟩))
  else
    match update_user update_data with
    | .raises e => .error (update_user_profile_except e)
    | .resp none => .error (update_user_profile_except (.app ⟨.externalServiceError, "Failed to update profile", []⟩))
    | .resp (some u) =>
        let meta := u.user_metadata.getD []
        .ok ⟨"success", ⟨meta.lookup "username", meta.lookup "full_name", meta.lookup "avatar_url"⟩⟩

/-- `delete_user` handler (src/api/user.py lines 206-229). -/
def delete_user (sb_delete : MetaUserOutcome) : Except HTTPException DeleteUserResponse :=
  match sb_delete with
  | .raises e => .error (delete_user_except e)
  | .resp none => .error (delete_user_except (.app ⟨.externalServiceError, "Failed to delete user", []⟩))
  | .resp (some _) => .ok ⟨"success", some "User deleted successfully"⟩

/- ===== src/middlewares/jwt_middleware.py ===== -/

/-- The decoded JWT payload as `verify_jwt_token_locally` reads it:
`none` models an absent claim; metadata dicts default to `{}`. -/
structure JWTPayload where
  sub : Option String
  email : Option String
  user_metadata : List (String × String)
  app_metadata : List (String × String)
  iat : Option Int
  role : Option String
  exp : Option Int
deriving DecidableEq, Repr

/-- Outcome of `jose.jwt.decode(token, key, algorithms=[...])`: it raises
a `JWTError` or returns the payload dict. -/
inductive DecodeOutcome where
  | jwtError (msg : String)
  | ok (payload : JWTPayload)
deriving DecidableEq, Repr

/-- The user dict returned by `verify_jwt_token_locally`. -/
structure JWTUser where
  id : String
  email : Option String
  user_metadata : List (String × String)
  app_metadata : List (String × String)
  created_at : Option Int
  updated_at : Option Int
  role : String
  exp : Option Int
deriving DecidableEq, Repr

/-- `if exp and datetime.fromtimestamp(exp, tz=utc) < datetime.now(utc)`
(src/middlewares/jwt_middleware.py lines 74-78): the comparison fires only
when `exp` is truthy (present and nonzero) and its instant is before
`now` (timestamps compare like the integers). -/
def expiry_check (exp : Option Int) (now : Int) : Bool :=
  match exp with
  | some e => e != 0 && e < now
  | none => false

/-- `verify_jwt_token_locally(token)` (src/middlewares/jwt_middleware.py
lines 54-107), as a function of the decode outcome and the current time.
A raised `JWTError` is caught by the `except JWTError` clause (401
"Invalid JWT token"); the `AuthenticationError`s raised in the body are
caught by the blanket `except` clause, whose `isinstance` test routes
them through `create_http_exception` (status 401). -/
def verify_jwt_token_locally (decode : DecodeOutcome) (now : Int) :
    Except HTTPException JWTUser :=
  match decode with
  | .jwtError _ => .error ⟨401, .str "Invalid JWT token"⟩
  | .ok payload =>
      if expiry_check payload.exp now then
        .error (create_http_exception (AuthenticationError "Token has expired" []))
      else
        match truthyStr payload.sub with
        | none => .error (create_http_exception (AuthenticationError "Invalid token payload" []))
        | some user_id =>
            .ok ⟨user_id, payload.email, payload.user_metadata, payload.app_metadata,
              payload.iat, payload.iat, payload.role.getD "user", payload.exp⟩

/-- `verify_jwt_token(token)` (src/middlewares/jwt_middleware.py lines
110-123): `return verify_jwt_token_locally(token)`. -/
def verify_jwt_token (decode : DecodeOutcome) (now : Int) :
    Except HTTPException JWTUser :=
  verify_jwt_token_locally decode now

/- ===== src/utils/audit_logger.py ===== -/

mutual
/-- JSON-like values appearing in request bodies and audit metadata.
`atom` stands for any non-dict Python value (string, number, list, ...),
opaquely named; `sanitize_request_body` recurses only into dicts, so
atoms are compared and preserved whole. -/
inductive Val where
  | atom (s : String) : Val
  | dict (entries : Entries) : Val
/-- The entries of a Python dict, in insertion order. -/
inductive Entries where
  | nil : Entries
  | cons (key : String) (value : Val) (rest : Entries) : Entries
end

deriving instance DecidableEq for Val
deriving instance DecidableEq for Entries

/-- The `sensitive_fields` set (src/utils/audit_logger.py lines 125-136). -/
def sensitive_fields : List String :=
  ["password", "current_password", "new_password", "confirm_password",
   "token", "access_token", "refresh_token", "secret", "api_key", "private_key"]

/-- `key.lower() in sensitive_fields`. -/
def isSensitiveKey (k : String) : Bool :=
  sensitive_fields.contains (pyLower k)

mutual
/-- `sanitize_request_body(body)` (src/utils/audit_logger.py lines
115-150): non-dict input is returned unchanged; in a dict, sensitive keys
map to `"[REDACTED]"`, dict values under non-sensitive keys are sanitized
recursively, and all other values are kept. -/
def sanitize_request_body : Val → Val
  | .atom s => .atom s
  | .dict es => .dict (sanitize_entries es)
def sanitize_entries : Entries → Entries
  | .nil => .nil
  | .cons k v rest =>
      if isSensitiveKey k then .cons k (.atom "[REDACTED]") (sanitize_entries rest)
      else .cons k (sanitize_request_body v) (sanitize_entries rest)
end

mutual
/-- Two bodies differ at most in the values stored under sensitive keys
(at any dict-nesting depth): same structure, same keys in the same order,
equal non-dict values under non-sensitive keys, arbitrary values under
sensitive keys. -/
def sensEqVal : Val → Val → Bool
  | .atom a, .atom b => a == b
  | .dict es₁, .dict es₂ => sensEqEntries es₁ es₂
  | _, _ => false
def sensEqEntries : Entries → Entries → Bool
  | .nil, .nil => true
  | .cons k₁ v₁ r₁, .cons k₂ v₂ r₂ =>
      k₁ == k₂ && (isSensitiveKey k₁ || sensEqVal v₁ v₂) && sensEqEntries r₁ r₂
  | _, _ => false
end

/-- The keys of a dict, in order. -/
def entryKeys : Entries → List String
  | .nil => []
  | .cons k _ r => k :: entryKeys r

/-- Membership of a key/value pair in a dict. -/
def entryMem (k : String) (v : Val) : Entries → Prop
  | .nil => False
  | .cons k' v' r => (k = k' ∧ v = v') ∨ entryMem k v r

/-- Appending entries (models `dict.update` for fresh keys). -/
def appendEntries : Entries → Entries → Entries
  | .nil, e => e
  | .cons k v r, e => .cons k v (appendEntries r e)

/-- `create_audit_metadata(request_body, status_code, additional_data)`
(src/utils/audit_logger.py lines 83-112), with the metadata dict built in
insertion order; `additional_data` entries are appended by `.update`. -/
def create_audit_metadata (request_body : Option Val) (status_code : Option Int)
    (additional_data : Option Entries) : Entries :=
  let m1 : Entries :=
    match request_body with
    | some b => .cons "request_body" (sanitize_request_body b) .nil
    | none => .nil
  let m2 : Entries :=
    match status_code with
    | some c => appendEntries m1 (.cons "status_code" (.atom (toString c)) .nil)
    | none => m1
  match additional_data with
  | some extra => appendEntries m2 extra
  | none => m2

/- ===== src/utils/audit_logger.py: log_audit_action ===== -/

/-- Python exception classes relevant to `log_audit_action`'s
`except (ValueError, ConnectionError, TimeoutError)` clause, plus
representatives of everything it does not catch. -/
inductive PyExcType where
  | valueError | connectionError | timeoutError
  | keyError | typeError | apiError | otherExc (name : String)
deriving DecidableEq, Repr

/-- Whether `except (ValueError, ConnectionError, TimeoutError)` catches
the exception (src/utils/audit_logger.py line 69). -/
def audit_log_catches : PyExcType → Bool
  | .valueError => true
  | .connectionError => true
  | .timeoutError => true
  | _ => false

/-- The `audit_record` dict prepared by `log_audit_action`
(src/utils/audit_logger.py lines 45-53). -/
structure AuditRecord where
  user_id : Option String
  action : String
  resource : String
  resource_id : Option String
  ip_address : Option String
  user_agent : Option String
  metadata : Val

/-- Outcome of `table("audit_logs").insert(record).execute()` (the oracle
also stands for `get_supabase_admin_client()`, the other call inside the
`try`): it raises, or returns a response whose `.data` may be truthy. -/
inductive InsertOutcome where
  | raises (t : PyExcType)
  | resp (hasData : Bool)

/-- `log_audit_action(...)` (src/utils/audit_logger.py lines 12-80):
builds the record (`metadata or {}`), runs the insert, and catches only
`ValueError`, `ConnectionError` and `TimeoutError`; any other exception
propagates (`.error`).  The success/no-data cases only differ in what is
logged, so both are `.ok ()`. -/
def log_audit_action (user_id : Option String) (action : String) (resource : String)
    (resource_id : Option String) (ip_address : Option String) (user_agent : Option String)
    (metadata : Option Val) (insert : AuditRecord → InsertOutcome) :
    Except PyExcType Unit :=
  let record : AuditRecord :=
    ⟨user_id, action, resource, resource_id, ip_address, user_agent,
      metadata.getD (.dict .nil)⟩
  match insert record with
  | .resp _ => .ok ()
  | .raises t => if audit_log_catches t then .ok () else .error t

/- ===== helper lemmas ===== -/

theorem truthyStr_some_iff (o : Option String) (s : String) :
    truthyStr o = some s ↔ o = some s ∧ s ≠ "" := by
  cases o with
  | none => simp [truthyStr]
  | some t =>
      by_cases h : t = ""
      · subst h
        simp only [truthyStr, if_pos rfl]
        constructor
        · intro hc; exact absurd hc (by simp)
        · rintro ⟨he, hne⟩
          exact absurd (Option.some.inj he).symm hne
      · simp only [truthyStr, if_neg h]
        constructor
        · intro he
          have : t = s := Option.some.inj he
          subst this
          exact ⟨rfl, h⟩
        · rintro ⟨he, _⟩
          exact he

mutual
theorem sanitize_congrVal : ∀ (v₁ v₂ : Val), sensEqVal v₁ v₂ = true →
    sanitize_request_body v₁ = sanitize_request_body v₂
  | .atom a, .atom b, h => by
      have hab : a = b := by simpa [sensEqVal] using h
      rw [hab]
  | .atom _, .dict _, h => by simp [sensEqVal] at h
  | .dict _, .atom _, h => by simp [sensEqVal] at h
  | .dict es₁, .dict es₂, h => by
      have h' : sensEqEntries es₁ es₂ = true := by simpa [sensEqVal] using h
      show Val.dict (sanitize_entries es₁) = Val.dict (sanitize_entries es₂)
      rw [sanitize_congrEntries es₁ es₂ h']
theorem sanitize_congrEntries : ∀ (e₁ e₂ : Entries), sensEqEntries e₁ e₂ = true →
    sanitize_entries e₁ = sanitize_entries e₂
  | .nil, .nil, _ => rfl
  | .nil, .cons _ _ _, h => by simp [sensEqEntries] at h
  | .cons _ _ _, .nil, h => by simp [sensEqEntries] at h
  | .cons k₁ v₁ r₁, .cons k₂ v₂ r₂, h => by
      simp only [sensEqEntries, Bool.and_eq_true, beq_iff_eq, Bool.or_eq_true] at h
      obtain ⟨⟨hk, hv⟩, hr⟩ := h
      subst hk
      have hrest := sanitize_congrEntries r₁ r₂ hr
      by_cases hs : isSensitiveKey k₁ = true
      · show (if isSensitiveKey k₁ then _ else _) = (if isSensitiveKey k₁ then _ else _)
        rw [if_pos hs, if_pos hs, hrest]
      · have hv' : sensEqVal v₁ v₂ = true := by
          rcases hv with h1 | h1
          · exact absurd h1 hs
          · exact h1
        show (if isSensitiveKey k₁ then _ else _) = (if isSensitiveKey k₁ then _ else _)
        rw [if_neg hs, if_neg hs, hrest, sanitize_congrVal v₁ v₂ hv']
end

theorem entryKeys_sanitize : ∀ es : Entries, entryKeys (sanitize_entries es) = entryKeys es
  | .nil => rfl
  | .cons k v r => by
      by_cases hs : isSensitiveKey k = true
      · simp [sanitize_entries, hs, entryKeys, entryKeys_sanitize r]
      · simp [sanitize_entries, hs, entryKeys, entryKeys_sanitize r]

theorem entryMem_sanitize_sensitive : ∀ (es : Entries) (k : String) (v : Val),
    entryMem k v es → isSensitiveKey k = true →
    entryMem k (.atom "[REDACTED]") (sanitize_entries es)
  | .nil, _, _, h, _ => absurd h (by simp [entryMem])
  | .cons k' v' r, k, v, h, hs => by
      rcases h with ⟨hk, _⟩ | hmem
      · subst hk
        simp [sanitize_entries, hs, entryMem]
      · have ih := entryMem_sanitize_sensitive r k v hmem hs
        by_cases hs' : isSensitiveKey k' = true
        · simp only [sanitize_entries, if_pos hs', entryMem]
          exact Or.inr ih
        · simp only [sanitize_entries, if_neg hs', entryMem]
          exact Or.inr ih

theorem entryMem_sanitize_plain : ∀ (es : Entries) (k : String) (v : Val),
    entryMem k v es → isSensitiveKey k = false →
    entryMem k (sanitize_request_body v) (sanitize_entries es)
  | .nil, _, _, h, _ => absurd h (by simp [entryMem])
  | .cons k' v' r, k, v, h, hs => by
      rcases h with ⟨hk, hv⟩ | hmem
      · subst hk; subst hv
        have hs' : ¬ isSensitiveKey k = true := by simp [hs]
        simp [sanitize_entries, if_neg hs', entryMem]
      · have ih := entryMem_sanitize_plain r k v hmem hs
        by_cases hs' : isSensitiveKey k' = true
        · simp only [sanitize_entries, if_pos hs', entryMem]
          exact Or.inr ih
        · simp only [sanitize_entries, if_neg hs', entryMem]
          exact Or.inr ih

theorem mem_truthy_item (o : Option String) (key k v : String)
    (h : (k, v) ∈ (match truthyStr o with
      | some s => [(key, s)]
      | none => ([] : List (String × String)))) :
    v ≠ "" := by
  cases ho : truthyStr o with
  | none => rw [ho] at h; simp at h
  | some s =>
      rw [ho] at h
      simp only [List.mem_singleton, Prod.mk.injEq] at h
      rcases h with ⟨_, hv⟩
      rw [hv]
      exact ((truthyStr_some_iff o s).mp ho).2

/- ===== claim theorems ===== -/

/-- C1: the error taxonomy is fixed — AuthenticationError carries 401,
ValidationError 422, NotFoundError 404, ConflictError 409,
ExternalServiceError 502 — and `create_http_exception` maps any
`AppException` to an `HTTPException` with the same status code and a
detail holding exactly the exception's message and details. -/
theorem error_taxonomy_status_codes :
    (∀ m d, (AuthenticationError m d).status_code = 401) ∧
    (∀ m d, (ValidationError m d).status_code = 422) ∧
    (∀ m d, (NotFoundError m d).status_code = 404) ∧
    (∀ m d, (ConflictError m d).status_code = 409) ∧
    (∀ m d, (ExternalServiceError m d).status_code = 502) ∧
    (∀ exc : AppException, (create_http_exception exc).status_code = exc.status_code ∧
      (create_http_exception exc).detail = .obj exc.message exc.details) :=
  ⟨fun _ _ => rfl, fun _ _ => rfl, fun _ _ => rfl, fun _ _ => rfl, fun _ _ => rfl,
   fun _ => ⟨rfl, rfl⟩⟩

/-- C2 counterexample: when the provider call itself raises (a generic
exception without a `detail` attribute), the login handler fails with
status 400, not 401 as claimed. -/
theorem login_provider_raise_gives_400 :
    login ⟨"ada@example.com", "pw"⟩ (.raises (.plain none)) =
      .error ⟨400, .str "None"⟩ ∧ (400 : Nat) ≠ 401 :=
  ⟨rfl, by decide⟩

/-- C2 (amended): a provider response carrying both a user and a session
yields the token bundle (session's access_token, refresh_token,
expires_in, token_type "bearer"); a response missing the user or the
session yields 401 "Invalid credentials"; but a provider call that raises
a non-application exception yields 400. -/
theorem login_amended_behavior :
    (∀ (req : UserLogin) (pu : ProviderUser) (sess : Session),
      ∃ t, login req (.resp (some pu) (some sess)) = .ok t ∧
        t.access_token = sess.access_token ∧
        t.refresh_token = sess.refresh_token ∧
        t.expires_in = sess.expires_in ∧
        t.token_type = "bearer") ∧
    (∀ (req : UserLogin) (u : Option ProviderUser) (s : Option Session),
      u = none ∨ s = none →
        login req (.resp u s) = .error ⟨401, .obj "Invalid credentials" []⟩) ∧
    (∀ (req : UserLogin) (e : PyExc), e.isApp = false →
      errStatus (login req (.raises e)) = some 400) := by
  refine ⟨fun req pu sess => ⟨_, rfl, rfl, rfl, rfl, rfl⟩, ?_, ?_⟩
  · intro req u s h
    match u, s with
    | none, none => rfl
    | none, some _ => rfl
    | some _, none => rfl
    | some _, some _ =>
        rcases h with h | h <;> exact absurd h (by simp)
  · intro req e h
    cases e with
    | app a => simp [PyExc.isApp] at h
    | withMessage m => rfl
    | plain d => cases d <;> rfl

/-- C2 witness: a concrete rejected response maps to 401. -/
theorem login_amended_behavior_witness :
    login ⟨"ada@example.com", "pw"⟩ (.resp none none) =
      .error ⟨401, .obj "Invalid credentials" []⟩ :=
  login_amended_behavior.2.1 ⟨"ada@example.com", "pw"⟩ none none (Or.inl rfl)

/-- C3 counterexample: a payload with `sub` present and `exp = 0` — a
timestamp earlier than the current time 1000 — is accepted, because the
code's `if exp and ...` treats `0` as falsy; so the claim "fails whenever
exp is earlier than the current time" is false as stated. -/
theorem verify_jwt_exp_zero_accepted :
    verify_jwt_token_locally (.ok ⟨some "u1", none, [], [], none, none, some 0⟩) 1000 =
      .ok ⟨"u1", none, [], [], none, none, "user", some 0⟩ ∧ (0 : Int) < 1000 :=
  ⟨rfl, by decide⟩

/-- C3 (amended): every failure of `verify_jwt_token_locally` has status
401; a success returns the decoded `sub` as `id` with role defaulting to
"user"; a payload whose `exp` is present, nonzero and earlier than `now`
is rejected as expired; a payload without a truthy `sub` is rejected; and
`verify_jwt_token` is exactly `verify_jwt_token_locally`. -/
theorem verify_jwt_amended_behavior :
    (∀ (d : DecodeOutcome) (now : Int) (err : HTTPException),
      verify_jwt_token_locally d now = .error err → err.status_code = 401) ∧
    (∀ (p : JWTPayload) (now : Int) (u : JWTUser),
      verify_jwt_token_locally (.ok p) now = .ok u →
        p.sub = some u.id ∧ u.id ≠ "" ∧ u.role = p.role.getD "user") ∧
    (∀ (p : JWTPayload) (now e : Int), p.exp = some e → e ≠ 0 → e < now →
      verify_jwt_token_locally (.ok p) now = .error ⟨401, .obj "Token has expired" []⟩) ∧
    (∀ (p : JWTPayload) (now : Int), truthyStr p.sub = none →
      errStatus (verify_jwt_token_locally (.ok p) now) = some 401) ∧
    (∀ (d : DecodeOutcome) (now : Int), verify_jwt_token d now = verify_jwt_token_locally d now) := by
  refine ⟨?_, ?_, ?_, ?_, fun _ _ => rfl⟩
  · intro d now err h
    cases d with
    | jwtError m =>
        simp only [verify_jwt_token_locally, Except.error.injEq] at h
        rw [← h]
    | ok p =>
        simp only [verify_jwt_token_locally] at h
        split at h
        · simp only [Except.error.injEq] at h
          rw [← h]
          rfl
        · split at h
          · simp only [Except.error.injEq] at h
            rw [← h]
            rfl
          · exact absurd h (by simp)
  · intro p now u h
    simp only [verify_jwt_token_locally] at h
    split at h
    · exact absurd h (by simp)
    · split at h
      · exact absurd h (by simp)
      · rename_i uid huid
        simp only [Except.ok.injEq] at h
        have hsub := (truthyStr_some_iff p.sub uid).mp huid
        rw [← h]
        exact ⟨hsub.1, hsub.2, rfl⟩
  · intro p now e he hne hlt
    have hx : expiry_check p.exp now = true := by
      rw [he]
      simp [expiry_check, hne, hlt]
    simp [verify_jwt_token_locally, hx, create_http_exception, AuthenticationError]
  · intro p now h
    by_cases hx : expiry_check p.exp now = true
    · simp [verify_jwt_token_locally, hx, errStatus, create_http_exception, AuthenticationError]
    · simp [verify_jwt_token_locally, hx, h, errStatus, create_http_exception, AuthenticationError]

/-- C3 witness: a concrete expired payload (exp 5, now 1000) is rejected
with the 401 "Token has expired" error. -/
theorem verify_jwt_amended_behavior_witness :
    verify_jwt_token_locally (.ok ⟨some "u1", none, [], [], none, none, some 5⟩) 1000 =
      .error ⟨401, .obj "Token has expired" []⟩ :=
  verify_jwt_amended_behavior.2.2.1 ⟨some "u1", none, [], [], none, none, some 5⟩ 1000 5
    rfl (by decide) (by decide)

/-- C4: `log_audit_action` catches only ValueError, ConnectionError and
TimeoutError; an insert failure of any other class (here KeyError, as a
Supabase `APIError` would be) propagates out of the function instead of
being swallowed, contradicting the function's own contract of always
returning None.  A caught class is swallowed as documented. -/
theorem log_audit_action_uncaught_exception_propagates :
    log_audit_action (some "u1") "UPDATE" "user" none none none none
      (fun _ => .raises .keyError) = .error .keyError ∧
    audit_log_catches .keyError = false ∧
    log_audit_action (some "u1") "UPDATE" "user" none none none none
      (fun _ => .raises .valueError) = .ok () :=
  ⟨rfl, rfl, rfl⟩

/-- C5 counterexample: the refresh handler's fallback for a generic
exception is 401, and the profile handler's fallback for a non-application
exception carrying a provider message is also 401 — neither is the
claimed generic 500/400. -/
theorem fallback_status_counterexample :
    (refresh_token_except (.plain none)).status_code = 401 ∧
    (get_user_profile_except (.withMessage "Invalid JWT token")).status_code = 401 ∧
    ((401 : Nat) ≠ 500 ∧ (401 : Nat) ≠ 400) :=
  ⟨rfl, rfl, by decide⟩

/-- C5 (amended): for every exception that is not an application
exception, login and register fall back to 400; logout, forgot-password,
reset-password and account deletion fall back to 500; refresh falls back
to 401; profile read/update fall back to 500 only when the exception has
no message attribute, and otherwise map the message to a taxonomy status
(401/404/502 for read, 401/404/409/422/502 for update). -/
theorem fallback_statuses_amended (e : PyExc) (h : e.isApp = false) :
    (login_except e).status_code = 400 ∧
    (register_except e).status_code = 400 ∧
    (logout_except e).status_code = 500 ∧
    (forgot_password_except e).status_code = 500 ∧
    (reset_password_except e).status_code = 500 ∧
    (delete_user_except e).status_code = 500 ∧
    (refresh_token_except e).status_code = 401 ∧
    (e.messageAttr = none →
      (get_user_profile_except e).status_code = 500 ∧
      (update_user_profile_except e).status_code = 500) ∧
    (∀ m, e.messageAttr = some m →
      (get_user_profile_except e).status_code ∈ ([401, 404, 502] : List Nat) ∧
      (update_user_profile_except e).status_code ∈ ([401, 404, 409, 422, 502] : List Nat)) := by
  cases e with
  | app a => simp [PyExc.isApp] at h
  | plain d =>
      refine ⟨rfl, rfl, rfl, rfl, rfl, rfl, rfl, fun _ => ⟨rfl, rfl⟩, ?_⟩
      intro m hm
      simp [PyExc.messageAttr] at hm
  | withMessage msg =>
      refine ⟨rfl, rfl, rfl, rfl, rfl, rfl, rfl, ?_, ?_⟩
      · intro hm
        simp [PyExc.messageAttr] at hm
      · intro m _
        constructor
        · simp only [get_user_profile_except, isinstance_app5, PyExc.messageAttr]
          split_ifs <;>
            simp_all [create_http_exception, AuthenticationError, NotFoundError, ExternalServiceError]
        · simp only [update_user_profile_except, isinstance_app5, PyExc.messageAttr]
          split_ifs <;>
            simp_all [create_http_exception, AuthenticationError, NotFoundError, ConflictError,
              ValidationError, ExternalServiceError]

/-- C5 witness: a concrete generic exception is not an application
exception, and refresh's fallback status for it is 401. -/
theorem fallback_statuses_amended_witness :
    (PyExc.plain none).isApp = false ∧
    (refresh_token_except (.plain none)).status_code = 401 :=
  ⟨rfl, (fallback_statuses_amended (.plain none) rfl).2.2.2.2.2.2.1⟩

/-- C6: when the users-table lookup finds an existing row, `register`
returns the "exists" response ("User is already registered") built from
that row, does not raise, and its result does not depend on the sign_up
oracle at all (sign_up is never called). -/
theorem register_existing_user_exists_response (user : UserRegister) (u : RegRow)
    (s : SignUpOutcome) :
    register user (.found (some u)) s =
      .ok ⟨"exists",
        ⟨u.id, u.email,
          some ((u.raw_user_meta_data.lookup "full_name").getD ""),
          some ((u.raw_user_meta_data.lookup "username").getD ""),
          u.created_at, u.updated_at⟩,
        some "User is already registered"⟩ ∧
    (∀ s₁ s₂ : SignUpOutcome,
      register user (.found (some u)) s₁ = register user (.found (some u)) s₂) :=
  ⟨rfl, fun _ _ => rfl⟩

/-- C7: when none of username, full_name, avatar_url is truthy, the
profile-update handler fails with the 422 validation error "No profile
data provided for update", and its result does not depend on the
`update_user` oracle (the provider is never called). -/
theorem update_profile_no_data_validation_error (p : UserProfileUpdate)
    (h1 : truthyStr p.username = none) (h2 : truthyStr p.full_name = none)
    (h3 : truthyStr p.avatar_url = none) :
    (∀ f, update_user_profile p f =
      .error ⟨422, .obj "No profile data provided for update" []⟩) ∧
    (∀ f g, update_user_profile p f = update_user_profile p g) := by
  have hempty : build_update_data p = [] := by
    simp [build_update_data, h1, h2, h3]
  have hmain : ∀ f, update_user_profile p f =
      .error ⟨422, .obj "No profile data provided for update" []⟩ := by
    intro f
    simp [update_user_profile, hempty, update_user_profile_except, isinstance_app5,
      pyExcToAppException, AppExc.toAppException, ValidationError, create_http_exception]
  exact ⟨hmain, fun f g => (hmain f).trans (hmain g).symm⟩

/-- C7 witness: a request whose only provided fields are empty strings is
rejected with the 422 validation error. -/
theorem update_profile_no_data_validation_error_witness :
    truthyStr (some "") = none ∧
    update_user_profile ⟨some "", none, some ""⟩ (fun _ => .resp none) =
      .error ⟨422, .obj "No profile data provided for update" []⟩ :=
  ⟨rfl, (update_profile_no_data_validation_error ⟨some "", none, some ""⟩ rfl rfl rfl).1 _⟩

/-- C8: sanitization is a noninterference barrier for credentials — two
bodies that differ only in values under sensitive keys (case-insensitive,
at any dict-nesting depth) sanitize to equal results; sanitization
preserves the key list; every sensitive entry is mapped to "[REDACTED]";
and every non-sensitive entry's value is preserved (recursively
sanitized, the identity on non-dict values). -/
theorem sanitize_request_body_noninterference :
    (∀ v₁ v₂ : Val, sensEqVal v₁ v₂ = true →
      sanitize_request_body v₁ = sanitize_request_body v₂) ∧
    (∀ es : Entries, entryKeys (sanitize_entries es) = entryKeys es) ∧
    (∀ (es : Entries) (k : String) (v : Val), entryMem k v es → isSensitiveKey k = true →
      entryMem k (.atom "[REDACTED]") (sanitize_entries es)) ∧
    (∀ (es : Entries) (k : String) (v : Val), entryMem k v es → isSensitiveKey k = false →
      entryMem k (sanitize_request_body v) (sanitize_entries es)) :=
  ⟨sanitize_congrVal, entryKeys_sanitize, entryMem_sanitize_sensitive, entryMem_sanitize_plain⟩

/-- C8 witness: two concrete bodies differing only in the value under the
sensitive key "Password" (nested one dict deep) sanitize identically. -/
theorem sanitize_request_body_noninterference_witness :
    sensEqVal
      (.dict (.cons "creds" (.dict (.cons "Password" (.atom "hunter2") .nil))
        (.cons "email" (.atom "a@b.co") .nil)))
      (.dict (.cons "creds" (.dict (.cons "Password" (.atom "secret9") .nil))
        (.cons "email" (.atom "a@b.co") .nil))) = true ∧
    sanitize_request_body
      (.dict (.cons "creds" (.dict (.cons "Password" (.atom "hunter2") .nil))
        (.cons "email" (.atom "a@b.co") .nil))) =
    sanitize_request_body
      (.dict (.cons "creds" (.dict (.cons "Password" (.atom "secret9") .nil))
        (.cons "email" (.atom "a@b.co") .nil))) :=
  ⟨by decide, sanitize_request_body_noninterference.1 _ _ (by decide)⟩

/-- C9: a payload without an "exp" claim passes the expiry check — given
a truthy "sub", `verify_jwt_token_locally` returns the user dict (with
exp None) and never fails with "Token has expired". -/
theorem verify_jwt_no_exp_accepted (p : JWTPayload) (uid : String) (now : Int)
    (hexp : p.exp = none) (hsub : p.sub = some uid) (hne : uid ≠ "") :
    verify_jwt_token_locally (.ok p) now =
      .ok ⟨uid, p.email, p.user_metadata, p.app_metadata, p.iat, p.iat,
        p.role.getD "user", none⟩ := by
  simp [verify_jwt_token_locally, expiry_check, hexp, hsub, truthyStr, hne]

/-- C9 witness: a concrete exp-less payload is accepted at an arbitrary
current time. -/
theorem verify_jwt_no_exp_accepted_witness :
    verify_jwt_token_locally (.ok ⟨some "u1", some "a@b.co", [], [], some 5, none, none⟩) 99 =
      .ok ⟨"u1", some "a@b.co", [], [], some 5, some 5, "user", none⟩ :=
  verify_jwt_no_exp_accepted ⟨some "u1", some "a@b.co", [], [], some 5, none, none⟩ "u1" 99
    rfl rfl (by decide)

/-- C10: falsy profile fields are treated as absent — no entry of
`update_data` is ever the empty string, an all-empty-strings request
builds an empty `update_data`, and such a request is handled exactly like
the all-None request (422 validation error path). -/
theorem update_profile_falsy_fields_absent :
    (∀ (p : UserProfileUpdate) (k v : String), (k, v) ∈ build_update_data p → v ≠ "") ∧
    build_update_data ⟨some "", some "", some ""⟩ = [] ∧
    (∀ f, update_user_profile ⟨some "", some "", some ""⟩ f =
      update_user_profile ⟨none, none, none⟩ f) := by
  refine ⟨?_, rfl, fun _ => rfl⟩
  intro p k v hmem
  simp only [build_update_data, List.mem_append] at hmem
  rcases hmem with (hm | hm) | hm
  · exact mem_truthy_item p.username "username" k v hm
  · exact mem_truthy_item p.full_name "full_name" k v hm
  · exact mem_truthy_item p.avatar_url "avatar_url" k v hm

/-- C10 witness: a concrete truthy field is included and is not the empty
string. -/
theorem update_profile_falsy_fields_absent_witness :
    ("username", "alice") ∈ build_update_data ⟨some "alice", none, none⟩ ∧
    "alice" ≠ "" :=
  ⟨by decide,
   update_profile_falsy_fields_absent.1 ⟨some "alice", none, none⟩ "username" "alice" (by decide)⟩
